import Mathlib

/-
  Verification of the settings-scoping and execution-strategy core of the
  flake8 language server (`src/bundled/tool/lsp_server.py`).

  Filesystem paths are modelled as lists of segments of an absolute path
  (the root directory is `[]`).  Symbolic-link resolution is modelled by a
  link table mapping a link path to its target path; `normalize_path`
  (which lives in `lsp_utils.py`, outside `src/`) is modelled from the
  spec.  Python strings are Lean `String`s, Python `None` is `Option.none`,
  exceptions are `Except.error`.
-/

namespace Flake8

/-- An absolute filesystem path, as the list of its segments
(`/tmp/x/file.py` is `["tmp", "x", "file.py"]`; the root is `[]`). -/
abbrev FsPath := List String

/-- `pathlib.Path.parent` on an absolute path: drop the last segment
(the parent of the root is the root itself). -/
def parentDir (p : FsPath) : FsPath := p.dropLast

/-- One step of symlink substitution over a link table: if some link source
is a prefix of `p`, replace it by the link target. -/
def applyLink (links : List (FsPath × FsPath)) (p : FsPath) : Option FsPath :=
  links.findSome? fun l =>
    if l.1.isPrefixOf p then some (l.2 ++ p.drop l.1.length) else none

/-- Repeated symlink substitution, with fuel so that cyclic link tables
degrade to a best-effort result instead of diverging. -/
def resolveLinks (links : List (FsPath × FsPath)) : Nat → FsPath → FsPath
  | 0, p => p
  | fuel + 1, p =>
    match applyLink links p with
    | some q => resolveLinks links fuel q
    | none => p

/-- Modelled from the spec: `lsp_utils.normalize_path` is not under `src/`
(only its callers and tests are).  Per spec §4.1 it resolves symbolic links
to their real target and produces a canonical comparison key, never
raising: unresolvable tables fall back to the lexical path. -/
def normalize_path (links : List (FsPath × FsPath)) (p : FsPath) : FsPath :=
  resolveLinks links (links.length + 1) p

/-- The resolved per-workspace settings entry stored in
`WORKSPACE_SETTINGS` (shape of the dict values built by
`_update_workspace_settings` and `_get_settings_by_document`). -/
structure WsSettings where
  cwd : FsPath
  workspaceFS : FsPath
  path : List String
  interpreter : List String
  args : List String
  severity : List (String × String)
  importStrategy : String
  showNotifications : String
deriving DecidableEq, Repr

/-- The global default settings (`_get_global_defaults`), already read out
of `GLOBAL_SETTINGS`: same shape as `WsSettings` minus `cwd`/`workspaceFS`. -/
structure GlobalDefaults where
  path : List String
  interpreter : List String
  args : List String
  severity : List (String × String)
  importStrategy : String
  showNotifications : String
deriving DecidableEq, Repr

/-- The default severity map of `_get_global_defaults`. -/
def defaultSeverity : List (String × String) :=
  [("E", "Error"), ("F", "Error"), ("I", "Information"), ("W", "Warning")]

/-- The settings entry synthesized for a document owned by no workspace
(the `key is None` branch of `_get_settings_by_document`, and the
empty-settings branch of `_update_workspace_settings`): global defaults
scoped to `key`. -/
def orphanSettings (g : GlobalDefaults) (key : FsPath) : WsSettings :=
  { cwd := key, workspaceFS := key, path := g.path, interpreter := g.interpreter,
    args := g.args, severity := g.severity, importStrategy := g.importStrategy,
    showNotifications := g.showNotifications }

/-- `WORKSPACE_SETTINGS`: an insertion-ordered mapping from workspace key
to settings entry (Python dicts preserve insertion order). -/
abbrev Store := List (FsPath × WsSettings)

/-- Python dict assignment `WORKSPACE_SETTINGS[key] = value`: replace in
place if the key exists, else append. -/
def storeSet (st : Store) (k : FsPath) (v : WsSettings) : Store :=
  if st.any (fun kv => kv.1 == k) then
    st.map (fun kv => if kv.1 == k then (k, v) else kv)
  else st ++ [(k, v)]

/-- A raw per-workspace settings blob received from the editor
(one element of the `settings` sequence given to
`_update_workspace_settings`), with its workspace URI already turned into
a filesystem path by `uris.to_fs_path`. -/
structure RawSetting where
  workspace : FsPath
  cwd : FsPath
  path : List String
  interpreter : List String
  args : List String
  severity : List (String × String)
  importStrategy : String
  showNotifications : String
deriving DecidableEq, Repr

/-- `_update_workspace_settings`: when no settings arrive, seed one entry
keyed by the normalized global cwd from the global defaults; otherwise
upsert each entry under the normalized workspace path, stamping
`workspaceFS` with the key. -/
def _update_workspace_settings (links : List (FsPath × FsPath)) (globalCwd : FsPath)
    (g : GlobalDefaults) (settings : List RawSetting) (st : Store) : Store :=
  if settings.isEmpty then
    let key := normalize_path links globalCwd
    storeSet st key (orphanSettings g key)
  else
    settings.foldl
      (fun acc s =>
        let key := normalize_path links s.workspace
        storeSet acc key
          { cwd := s.cwd, workspaceFS := key, path := s.path,
            interpreter := s.interpreter, args := s.args, severity := s.severity,
            importStrategy := s.importStrategy,
            showNotifications := s.showNotifications })
      st

/-- An LSP text document as the server sees it: its URI, its filesystem
path (`None` for non-file URIs) and its text contents. -/
structure Doc where
  uri : String
  path : Option FsPath
  source : String
deriving DecidableEq, Repr

/-- The key set `{s["workspaceFS"] for s in WORKSPACE_SETTINGS.values()}`. -/
def workspaceKeys (st : Store) : List FsPath := st.map (fun kv => kv.2.workspaceFS)

/-- The loop body of `_get_document_key`'s ancestor walk, with fuel: each
iteration drops one trailing segment, so running out of fuel coincides
with having reached the root. -/
def walkUpAux (links : List (FsPath × FsPath)) (keys : List FsPath) :
    Nat → FsPath → Option FsPath
  | 0, _ => none
  | fuel + 1, p =>
    if p = [] then none
    else if keys.contains (normalize_path links p) then
      some (normalize_path links p)
    else walkUpAux links keys fuel p.dropLast

/-- The ancestor walk of `_get_document_key`: starting at the document
path, normalize and test membership, then move to the parent, stopping
when the parent equals the path itself (the root, `[]`).  `p.length` fuel
is exact: the loop drops one segment per iteration. -/
def walkUp (links : List (FsPath × FsPath)) (keys : List FsPath) (p : FsPath) :
    Option FsPath :=
  walkUpAux links keys p.length p

/-- `_get_document_key`: `None` when the store is empty, else the ancestor
walk over the stored workspace keys. -/
def _get_document_key (links : List (FsPath × FsPath)) (st : Store)
    (docPath : FsPath) : Option FsPath :=
  if st.isEmpty then none
  else walkUp links (workspaceKeys st) docPath

/-- `list(WORKSPACE_SETTINGS.values())[0]`: the first stored entry in
insertion order; an `IndexError` on an empty store. -/
def storeFirst (st : Store) : Except String WsSettings :=
  match st with
  | [] => Except.error "IndexError"
  | kv :: _ => Except.ok kv.2

/-- `_get_settings_by_document`: a missing document (or one with no path)
gets the first stored entry; otherwise the document key decides between
the stored entry for that key and orphan defaults scoped to the
document's parent directory. -/
def _get_settings_by_document (links : List (FsPath × FsPath)) (g : GlobalDefaults)
    (st : Store) (doc : Option Doc) : Except String WsSettings :=
  match doc with
  | none => storeFirst st
  | some d =>
    match d.path with
    | none => storeFirst st
    | some p =>
      match _get_document_key links st p with
      | none => Except.ok (orphanSettings g (normalize_path links (parentDir p)))
      | some key =>
        match List.lookup key st with
        | some s => Except.ok s
        | none => Except.error "KeyError"

/-- `TOOL_MODULE`. -/
def TOOL_MODULE : String := "flake8"

/-- `TOOL_DISPLAY`. -/
def TOOL_DISPLAY : String := "Flake8"

/-- The machine-parseable output-format directive of `TOOL_ARGS`
(`\x27` is the single-quote character wrapping the format text). -/
def FORMAT_ARG : String :=
  "--format=\x27%(row)d,%(col)d,%(code).1s,%(code)s:%(text)s\x27"

/-- `TOOL_ARGS`: default arguments always passed to the tool. -/
def TOOL_ARGS : List String := [FORMAT_ARG]

/-- The three mutually exclusive execution backends. -/
inductive Backend
  | declaredPath
  | crossInterpreterRPC
  | inProcessModule
deriving DecidableEq, Repr

/-- The per-invocation execution plan assembled by `_run_tool_on_document`. -/
structure ExecutionPlan where
  backend : Backend
  argv : List String
  cwd : FsPath
  useStdin : Bool
deriving DecidableEq, Repr

/-- Render a segment path back to the string handed to the tool's argv. -/
def pathToString (p : FsPath) : String := "/" ++ String.intercalate "/" p

/-- The backend-selection ladder of `_run_tool_on_document`
(lines 522-538): `(use_path, use_rpc, argv-so-far)`.  `path` takes
priority over everything; else a non-empty interpreter that is not the
current interpreter selects RPC; else the in-process module. -/
def _choose (isCurrent : String → Bool) (s : WsSettings) :
    Bool × Bool × List String :=
  if s.path ≠ [] then (true, false, s.path)
  else
    match s.interpreter with
    | [] => (false, false, [TOOL_MODULE])
    | i0 :: _ =>
      if isCurrent i0 then (false, false, [TOOL_MODULE])
      else (false, true, [TOOL_MODULE])

/-- The trailing argv: stdin markers, or the bare document path. -/
def docArgs (p : FsPath) (useStdin : Bool) : List String :=
  if useStdin then ["--stdin-display-name", pathToString p, "-"]
  else [pathToString p]

/-- The plan `_run_tool_on_document` assembles once settings are resolved:
chosen backend, then `argv-so-far ++ TOOL_ARGS ++ settings args ++ extra
args ++ document trailer`, run under the settings' `cwd`. -/
def planForSettings (isCurrent : String → Bool) (s : WsSettings) (docPath : FsPath)
    (useStdin : Bool) (extraArgs : List String) : ExecutionPlan :=
  let c := _choose isCurrent s
  { backend :=
      if c.1 then Backend.declaredPath
      else if c.2.1 then Backend.crossInterpreterRPC
      else Backend.inProcessModule,
    argv := c.2.2 ++ TOOL_ARGS ++ s.args ++ extraArgs ++ docArgs docPath useStdin,
    cwd := s.cwd,
    useStdin := useStdin }

/-- The directory name whose exact presence as a path segment marks a
site-packages location. -/
def SITE_PACKAGES : String := "site-packages"

/-- Modelled from the spec: `lsp_utils.is_stdlib_file` is not under `src/`
(only `test_stdlib_detection.py` is).  Per spec §4.4 and those tests, a
file is a standard-library file when its symlink-resolved path falls under
a standard-library root and no path segment is exactly `site-packages`
(`site-packages-backup` under a stdlib root still counts as stdlib). -/
def is_stdlib_file (stdlibRoots : List FsPath) (links : List (FsPath × FsPath))
    (p : FsPath) : Bool :=
  let rp := normalize_path links p
  (stdlibRoots.any (fun r => r.isPrefixOf rp)) && !(rp.contains SITE_PACKAGES)

/-- The planning part of `_run_tool_on_document`: skip (no plan) for
notebook cells and stdlib files, else resolve settings and assemble the
plan.  Outcomes of actually executing the plan are modelled separately. -/
def _run_tool_on_document (stdlibRoots : List FsPath) (links : List (FsPath × FsPath))
    (isCurrent : String → Bool) (g : GlobalDefaults) (st : Store)
    (doc : Doc) (useStdin : Bool) (extraArgs : List String) :
    Except String (Option ExecutionPlan) :=
  if doc.uri.startsWith "vscode-notebook-cell" then Except.ok none
  else
    match doc.path with
    | none => Except.error "TypeError"
    | some p =>
      if is_stdlib_file stdlibRoots links p then Except.ok none
      else
        match _get_settings_by_document links g st (some doc) with
        | Except.error e => Except.error e
        | Except.ok s =>
          Except.ok (some (planForSettings isCurrent s p useStdin extraArgs))

/-- The argument vectors produced by `n` successive invocations of the
pipeline on the same document.  `_run_tool_on_document` only ever reads
`WORKSPACE_SETTINGS` (it takes a private deep copy of the resolved entry
before mutating anything), so each invocation sees the same store. -/
def lintArgvSequence (stdlibRoots : List FsPath) (links : List (FsPath × FsPath))
    (isCurrent : String → Bool) (g : GlobalDefaults) (doc : Doc)
    (useStdin : Bool) (extraArgs : List String) : Nat → Store → List (List String)
  | 0, _ => []
  | n + 1, st =>
    (match _run_tool_on_document stdlibRoots links isCurrent g st doc useStdin extraArgs with
     | Except.ok (some pl) => [pl.argv]
     | _ => [])
    ++ lintArgvSequence stdlibRoots links isCurrent g doc useStdin extraArgs n st

/-- LSP diagnostic severities (`lsp.DiagnosticSeverity`). -/
inductive DiagnosticSeverity
  | error
  | warning
  | information
  | hint
deriving DecidableEq, Repr

/-- `lsp.DiagnosticSeverity[value]` as a name lookup: the four member
names map to their severity, anything else is a `KeyError` (`none`). -/
def sevFromString (v : String) : Option DiagnosticSeverity :=
  if v = "Error" then some DiagnosticSeverity.error
  else if v = "Warning" then some DiagnosticSeverity.warning
  else if v = "Information" then some DiagnosticSeverity.information
  else if v = "Hint" then some DiagnosticSeverity.hint
  else none

/-- Python `code[:-1]`. -/
def strDropLast (s : String) : String := String.mk s.data.dropLast

/-- The `while code and value is None` loop of `_get_severity`, with fuel
(the loop drops one character per iteration, so `code.length` fuel is
exact). -/
def sevLoop (severity : List (String × String)) : Nat → String → Option String
  | 0, _ => none
  | fuel + 1, code =>
    if code = "" then none
    else
      match List.lookup code severity with
      | some v => some v
      | none => sevLoop severity fuel (strDropLast code)

/-- `_get_severity`: walk the code's shrinking prefixes through the
override map, fall back to the code type, default to `"Error"`, and
convert the resulting name (unknown names also become `Error`). -/
def _get_severity (code : String) (code_type : String)
    (severity : List (String × String)) : DiagnosticSeverity :=
  let value :=
    match sevLoop severity code.length code with
    | some v => v
    | none => (List.lookup code_type severity).getD "Error"
  (sevFromString value).getD DiagnosticSeverity.error

/-- Word characters of the regex class `\w` (ASCII). -/
def isWordChar (c : Char) : Bool := c.isAlphanum || c == '_'

/-- The capture groups of `DIAGNOSTIC_RE`
(`(\d+),(-?\d+),(\w+),(\w+\d+):([^\r\n]*)`). -/
structure RawDiag where
  line : Int
  column : Int
  type : String
  code : String
  message : String
deriving DecidableEq, Repr

/-- Digit run to a number. -/
def digitsToNat (ds : List Char) : Nat :=
  ds.foldl (fun n c => 10 * n + (c.toNat - 48)) 0

/-- `DIAGNOSTIC_RE.match` on one line: a digit run, a comma, an optionally
negative digit run, a comma, a word run, a comma, a word run of length at
least two ending in a digit (`\w+\d+`), a colon, then the message up to a
CR or LF (`re.match` allows trailing text after the match). -/
def matchDiagLine (cs : List Char) : Option RawDiag :=
  let d1 := cs.takeWhile Char.isDigit
  if d1 = [] then none
  else
    match cs.dropWhile Char.isDigit with
    | ',' :: r2 =>
      let (neg, r2b) := match r2 with
        | '-' :: t => (true, t)
        | _ => (false, r2)
      let d2 := r2b.takeWhile Char.isDigit
      if d2 = [] then none
      else
        match r2b.dropWhile Char.isDigit with
        | ',' :: r4 =>
          let w1 := r4.takeWhile isWordChar
          if w1 = [] then none
          else
            match r4.dropWhile isWordChar with
            | ',' :: r6 =>
              let w2 := r6.takeWhile isWordChar
              if w2.length < 2 then none
              else if !(match w2.getLast? with
                        | some c => c.isDigit
                        | none => false) then none
              else
                match r6.dropWhile isWordChar with
                | ':' :: rest =>
                  let msg := rest.takeWhile (fun c => c != '\r' && c != '\n')
                  let col := Int.ofNat (digitsToNat d2)
                  some { line := Int.ofNat (digitsToNat d1),
                         column := if neg then -col else col,
                         type := String.mk w1, code := String.mk w2,
                         message := String.mk msg }
                | _ => none
            | _ => none
        | _ => none
    | _ => none

/-- `str.splitlines()` over `\n`, `\r` and `\r\n`, without a trailing
empty line. -/
def splitLinesAux : List Char → List Char → List (List Char)
  | [], acc => if acc = [] then [] else [acc.reverse]
  | '\r' :: '\n' :: rest, acc => acc.reverse :: splitLinesAux rest []
  | '\r' :: rest, acc => acc.reverse :: splitLinesAux rest []
  | '\n' :: rest, acc => acc.reverse :: splitLinesAux rest []
  | c :: rest, acc => splitLinesAux rest (c :: acc)

/-- The quote stripping of `_parse_output_using_regex`: a line that starts
and ends with a single quote loses its first and last character. -/
def stripQuotes (cs : List Char) : List Char :=
  if cs.head? = some '\x27' ∧ cs.getLast? = some '\x27' then (cs.drop 1).dropLast
  else cs

/-- A published LSP diagnostic (start and end positions coincide in this
server, so one position suffices). -/
structure Diagnostic where
  line : Nat
  character : Nat
  message : String
  severity : DiagnosticSeverity
  code : String
  source : String
deriving DecidableEq, Repr

/-- `max(int(field) - 1, 0)`: one-based tool positions to zero-based LSP
positions. -/
def intToPos (x : Int) : Nat := (x - 1).toNat

/-- Build the LSP diagnostic of one matched line. -/
def diagOfRaw (severity : List (String × String)) (d : RawDiag) : Diagnostic :=
  { line := intToPos d.line, character := intToPos d.column, message := d.message,
    severity := _get_severity d.code d.type severity, code := d.code,
    source := TOOL_DISPLAY }

/-- `_parse_output_using_regex`: split the tool's stdout into lines, strip
surrounding quotes, keep the lines the diagnostic regex matches. -/
def _parse_output_using_regex (content : String)
    (severity : List (String × String)) : List Diagnostic :=
  (splitLinesAux content.data []).filterMap fun lineCs =>
    (matchDiagLine (stripQuotes lineCs)).map (diagOfRaw severity)

/-- The uniform result every backend converges on (`utils.RunResult`). -/
structure RunResult where
  stdout : String
  stderr : String
deriving DecidableEq, Repr

/-- The response of the cross-interpreter RPC channel
(`jsonrpc.RpcRunResult`); an empty `exception` plays Python's `None`. -/
structure RpcRunResult where
  stdout : String
  stderr : String
  exception : String
deriving DecidableEq, Repr

/-- The log channels used by the server's logging helpers. -/
inductive LogLevel
  | error
  | warning
  | info
  | log
deriving DecidableEq, Repr

/-- `_to_run_result_with_logging`: an RPC exception is logged at error
level and becomes the result's `stderr` slot; else stderr is logged and
kept; stdout passes through untouched in every case. -/
def _to_run_result_with_logging (rpc : RpcRunResult) :
    RunResult × List (LogLevel × String) :=
  if rpc.exception ≠ "" then
    ({ stdout := rpc.stdout, stderr := rpc.exception },
     [(LogLevel.error, rpc.exception)])
  else if rpc.stderr ≠ "" then
    ({ stdout := rpc.stdout, stderr := rpc.stderr }, [(LogLevel.log, rpc.stderr)])
  else ({ stdout := rpc.stdout, stderr := "" }, [])

/-- `_is_supported_file`: the document has a path and that path exists on
disk (existence is a parameter of the model). -/
def _is_supported_file (fileExists : FsPath → Bool) (doc : Doc) : Bool :=
  match doc.path with
  | some p => fileExists p
  | none => false

/-- `_linting_helper`.  `runTool` abstracts the full
`_run_tool_on_document` call including process execution: `Except.error`
is an exception reaching the surrounding `try` (spawn failure, remote
fault, resolution fault), `Except.ok none` an internal skip.  Every
non-parsing outcome ends in the empty diagnostics list. -/
def _linting_helper (links : List (FsPath × FsPath)) (g : GlobalDefaults)
    (st : Store) (fileExists : FsPath → Bool)
    (runTool : Doc → Except String (Option RunResult)) (doc : Doc) :
    List Diagnostic :=
  if _is_supported_file fileExists doc then
    match runTool doc with
    | Except.error _ => []
    | Except.ok none => []
    | Except.ok (some r) =>
      if r.stdout ≠ "" then
        match _get_settings_by_document links g st (some doc) with
        | Except.error _ => []
        | Except.ok s => _parse_output_using_regex r.stdout s.severity
      else []
  else []

/-- One diagnostics publication to the editor. -/
structure PublishAction where
  uri : String
  diagnostics : List Diagnostic
deriving DecidableEq, Repr

/-- `did_open` (and likewise `did_save`): lint the document and publish
whatever list comes back, unconditionally. -/
def did_open (links : List (FsPath × FsPath)) (g : GlobalDefaults) (st : Store)
    (fileExists : FsPath → Bool)
    (runTool : Doc → Except String (Option RunResult)) (doc : Doc) :
    List PublishAction :=
  [{ uri := doc.uri,
     diagnostics := _linting_helper links g st fileExists runTool doc }]

/-
  Concrete instances used by witnesses and counterexamples.
-/

/-- A concrete global-defaults record (the shipped defaults). -/
def gDefault : GlobalDefaults :=
  { path := [], interpreter := ["python"], args := [], severity := defaultSeverity,
    importStrategy := "useBundled", showNotifications := "off" }

/-- A concrete workspace key. -/
def demoKey : FsPath := ["home", "user", "proj"]

/-- A concrete stored settings entry for `demoKey`. -/
def demoEntry : WsSettings :=
  { cwd := demoKey, workspaceFS := demoKey, path := [], interpreter := ["python"],
    args := ["--max-line-length=100"], severity := defaultSeverity,
    importStrategy := "useBundled", showNotifications := "off" }

/-- A one-entry store. -/
def demoStore : Store := [(demoKey, demoEntry)]

/-- A concrete document on disk at `/tmp/x/a.py`. -/
def c1Doc : Doc := { uri := "file:a.py", path := some ["tmp", "x", "a.py"], source := "" }

/-
  C1 — skip/fault pipelines and diagnostics publication.
-/

/-- C1 (counterexample): the claim says a pipeline that ends in a skip
publishes nothing for the document.  On the concrete skipped document
`c1Doc` (its path does not exist on disk, and the tool layer returns the
skip value), `did_open` still performs exactly one publish for the
document, carrying the empty diagnostics list — which clears prior
findings. -/
theorem did_open_publishes_empty_on_skip_counterexample :
    did_open [] gDefault [] (fun _ => false) (fun _ => Except.ok none) c1Doc
      = [{ uri := "file:a.py", diagnostics := [] }] := by
  rfl

/-- C1 (amended): every pipeline that ends in a skip (unsupported
document, notebook cell, stdlib file) or in a tool fault (exception from
spawn, RPC or resolution) makes `_linting_helper` return the empty list,
and the handler still publishes that empty list for the document —
clearing previously published diagnostics rather than preserving them. -/
theorem skip_or_fault_still_publishes_empty (links : List (FsPath × FsPath))
    (g : GlobalDefaults) (st : Store) (fileExists : FsPath → Bool)
    (runTool : Doc → Except String (Option RunResult)) (doc : Doc)
    (h : _is_supported_file fileExists doc = false
         ∨ runTool doc = Except.ok none
         ∨ ∃ e, runTool doc = Except.error e) :
    did_open links g st fileExists runTool doc
      = [{ uri := doc.uri, diagnostics := [] }] := by
  rcases h with h | h | ⟨e, h⟩ <;>
    simp [did_open, _linting_helper, h]

/-- C1 (witness): the amended statement at a concrete fault: the RPC layer
raises, and `did_open` publishes the empty list for the document. -/
theorem skip_or_fault_still_publishes_empty_witness :
    did_open [] gDefault demoStore (fun _ => true)
        (fun _ => Except.error "remote fault") c1Doc
      = [{ uri := c1Doc.uri, diagnostics := [] }] :=
  skip_or_fault_still_publishes_empty [] gDefault demoStore (fun _ => true)
    (fun _ => Except.error "remote fault") c1Doc
    (Or.inr (Or.inr ⟨"remote fault", rfl⟩))

/-
  C3 — DeclaredPath priority and argv shape.
-/

/-- C3: when the `path` override is non-empty the plan selects the
DeclaredPath backend no matter what the interpreter setting holds, its
argv is the override, then the fixed tool args, then the workspace args,
then the extra args, then the stdin markers or the document path; and the
`use_path`/`use_rpc` selectors are never both set, so the three backends
are mutually exclusive. -/
theorem declared_path_takes_priority (isCurrent : String → Bool) (s : WsSettings)
    (docPath : FsPath) (useStdin : Bool) (extraArgs : List String)
    (h : s.path ≠ []) :
    (planForSettings isCurrent s docPath useStdin extraArgs).backend
        = Backend.declaredPath
    ∧ (planForSettings isCurrent s docPath useStdin extraArgs).argv
        = s.path ++ TOOL_ARGS ++ s.args ++ extraArgs
            ++ (if useStdin then ["--stdin-display-name", pathToString docPath, "-"]
                else [pathToString docPath])
    ∧ ∀ t : WsSettings,
        ¬ ((_choose isCurrent t).1 = true ∧ (_choose isCurrent t).2.1 = true) := by
  refine ⟨by simp [planForSettings, _choose, h], by simp [planForSettings, _choose, h, docArgs], ?_⟩
  intro t ht
  by_cases hp : t.path = []
  · rcases hi : t.interpreter with _ | ⟨i0, rest⟩
    · simp [_choose, hp, hi] at ht
    · by_cases hc : isCurrent i0 <;> simp [_choose, hp, hi, hc] at ht
  · simp [_choose, hp] at ht

/-- A settings entry whose `path` override and interpreter are both set. -/
def c3Settings : WsSettings :=
  { cwd := demoKey, workspaceFS := demoKey, path := ["flake8x"],
    interpreter := ["otherpython"], args := ["--select=E"],
    severity := defaultSeverity, importStrategy := "useBundled",
    showNotifications := "off" }

/-- C3 (witness): with both a path override and a foreign interpreter
configured, the concrete plan is DeclaredPath with the claimed argv. -/
theorem declared_path_takes_priority_witness :
    (planForSettings (fun _ => false) c3Settings ["tmp", "a.py"] false []).backend
        = Backend.declaredPath
    ∧ (planForSettings (fun _ => false) c3Settings ["tmp", "a.py"] false []).argv
        = ["flake8x"] ++ TOOL_ARGS ++ ["--select=E"] ++ []
            ++ [pathToString ["tmp", "a.py"]] :=
  ⟨(declared_path_takes_priority (fun _ => false) c3Settings ["tmp", "a.py"] false []
      (by decide)).1,
   (declared_path_takes_priority (fun _ => false) c3Settings ["tmp", "a.py"] false []
      (by decide)).2.1⟩

/-
  C6 — orphan documents get defaults scoped to their parent directory.
-/

/-- C6: with an empty store, or when the ancestor walk finds no stored
key, settings resolution returns the global defaults scoped to the
document's own parent directory: the returned `cwd` and workspace key
both equal the normalized parent directory of the document. -/
theorem orphan_document_gets_parent_scoped_defaults (links : List (FsPath × FsPath))
    (g : GlobalDefaults) (st : Store) (doc : Doc) (p : FsPath)
    (hpath : doc.path = some p)
    (h : st = [] ∨ walkUp links (workspaceKeys st) p = none) :
    _get_settings_by_document links g st (some doc)
      = Except.ok (orphanSettings g (normalize_path links (parentDir p))) := by
  rcases h with h | h
  · subst h
    simp [_get_settings_by_document, hpath, _get_document_key]
  · by_cases hst : st.isEmpty <;>
      simp [_get_settings_by_document, hpath, _get_document_key, hst, h]

/-- A concrete orphan document at `/tmp/x/file.py`. -/
def c6Doc : Doc := { uri := "file:f.py", path := some ["tmp", "x", "file.py"], source := "" }

/-- C6 (witness): with the empty store, the document at `/tmp/x/file.py`
resolves to defaults whose `cwd` is `/tmp/x`. -/
theorem orphan_document_gets_parent_scoped_defaults_witness :
    _get_settings_by_document [] gDefault [] (some c6Doc)
        = Except.ok (orphanSettings gDefault ["tmp", "x"])
    ∧ (orphanSettings gDefault ["tmp", "x"]).cwd = ["tmp", "x"] :=
  ⟨orphan_document_gets_parent_scoped_defaults [] gDefault [] c6Doc
      ["tmp", "x", "file.py"] rfl (Or.inl rfl),
   rfl⟩

/-
  C8 — RPC exceptions are folded into an ordinary RunResult.
-/

/-- A concrete RPC response carrying both an exception and parseable
stdout. -/
def c8Rpc : RpcRunResult :=
  { stdout := "1,1,E,E225:bad operator spacing", stderr := "",
    exception := "Traceback: remote failure" }

/-- A concrete supported document. -/
def c8Doc : Doc := { uri := "file:c8.py", path := some ["tmp", "x", "c8.py"], source := "" }

/-- C8 (counterexample): the claim says a response with a non-empty
`exception` is surfaced as an error distinct from a normal run and no
diagnostics are published from it.  On the concrete response `c8Rpc`, the
conversion yields an ordinary `RunResult` that keeps the stdout, and the
pipeline parses that stdout and publishes one diagnostic. -/
theorem rpc_exception_publishes_diagnostics_counterexample :
    (_to_run_result_with_logging c8Rpc).1
        = { stdout := "1,1,E,E225:bad operator spacing",
            stderr := "Traceback: remote failure" }
    ∧ did_open [] gDefault [] (fun _ => true)
        (fun _ => Except.ok (some (_to_run_result_with_logging c8Rpc).1)) c8Doc
      = [{ uri := "file:c8.py",
           diagnostics := [{ line := 0, character := 0,
                             message := "bad operator spacing",
                             severity := DiagnosticSeverity.error,
                             code := "E225", source := "Flake8" }] }] := by
  exact ⟨rfl, rfl⟩

/-- C8 (amended): a response with a non-empty `exception` is logged at
error level and the exception text replaces the stderr slot, but the
result is an ordinary `RunResult` whose stdout passes through; when that
stdout is non-empty the pipeline still parses it into published
diagnostics instead of suppressing them. -/
theorem rpc_exception_folded_into_run_result (rpc : RpcRunResult)
    (h : rpc.exception ≠ "") :
    (_to_run_result_with_logging rpc).1
        = { stdout := rpc.stdout, stderr := rpc.exception }
    ∧ (_to_run_result_with_logging rpc).2 = [(LogLevel.error, rpc.exception)]
    ∧ ∀ (links : List (FsPath × FsPath)) (g : GlobalDefaults) (st : Store)
        (fileExists : FsPath → Bool) (doc : Doc) (s : WsSettings),
        _is_supported_file fileExists doc = true →
        rpc.stdout ≠ "" →
        _get_settings_by_document links g st (some doc) = Except.ok s →
        _linting_helper links g st fileExists
            (fun _ => Except.ok (some (_to_run_result_with_logging rpc).1)) doc
          = _parse_output_using_regex rpc.stdout s.severity := by
  refine ⟨by simp [_to_run_result_with_logging, h],
          by simp [_to_run_result_with_logging, h], ?_⟩
  intro links g st fileExists doc s hsupp hout hres
  simp [_linting_helper, hsupp, _to_run_result_with_logging, h, hout, hres]

/-- C8 (witness): the amended statement at the concrete response `c8Rpc`
and document `c8Doc` over the empty store. -/
theorem rpc_exception_folded_into_run_result_witness :
    (_to_run_result_with_logging c8Rpc).1
        = { stdout := c8Rpc.stdout, stderr := c8Rpc.exception }
    ∧ _linting_helper [] gDefault [] (fun _ => true)
          (fun _ => Except.ok (some (_to_run_result_with_logging c8Rpc).1)) c8Doc
        = _parse_output_using_regex c8Rpc.stdout
            (orphanSettings gDefault ["tmp", "x"]).severity :=
  ⟨(rpc_exception_folded_into_run_result c8Rpc (by decide)).1,
   (rpc_exception_folded_into_run_result c8Rpc (by decide)).2.2
      [] gDefault [] (fun _ => true) c8Doc (orphanSettings gDefault ["tmp", "x"])
      rfl (by decide) rfl⟩

/-
  C10 — resolution for a missing document.
-/

/-- C10: when the document is missing (or has no path), resolution returns
the first workspace entry of the store in insertion order; and on an
empty store that same access fails with an index error instead of
returning settings. -/
theorem missing_document_uses_first_entry (links : List (FsPath × FsPath))
    (g : GlobalDefaults) (st : Store) (doc : Option Doc)
    (h : doc = none ∨ ∃ d, doc = some d ∧ d.path = none) :
    (∀ kv rest, st = kv :: rest →
        _get_settings_by_document links g st doc = Except.ok kv.2)
    ∧ (st = [] →
        _get_settings_by_document links g st doc = Except.error "IndexError") := by
  constructor
  · intro kv rest hst
    rcases h with h | ⟨d, hd, hp⟩
    · subst h; subst hst; rfl
    · subst hd; subst hst
      simp [_get_settings_by_document, hp, storeFirst]
  · intro hst
    rcases h with h | ⟨d, hd, hp⟩
    · subst h; subst hst; rfl
    · subst hd; subst hst
      simp [_get_settings_by_document, hp, storeFirst]

/-- C10 (witness): on the one-entry store the missing document gets the
first (and only) entry; on the empty store the access errors out. -/
theorem missing_document_uses_first_entry_witness :
    _get_settings_by_document [] gDefault demoStore none = Except.ok demoEntry
    ∧ _get_settings_by_document [] gDefault [] none = Except.error "IndexError" :=
  ⟨(missing_document_uses_first_entry [] gDefault demoStore none (Or.inl rfl)).1
      (demoKey, demoEntry) [] rfl,
   (missing_document_uses_first_entry [] gDefault [] none (Or.inl rfl)).2 rfl⟩

/-
  C2 — symlink-safe ancestor resolution.
-/

/-- `n`-fold `parentDir`: the ancestor of a path obtained by `n` steps of
the walk. -/
def iterDrop : Nat → FsPath → FsPath
  | 0, p => p
  | n + 1, p => iterDrop n p.dropLast

theorem iterDrop_nil (n : Nat) : iterDrop n [] = [] := by
  induction n with
  | zero => rfl
  | succ n ih => exact ih

theorem iterDrop_eq_nil_of_le (n : Nat) (p : FsPath) (h : p.length ≤ n) :
    iterDrop n p = [] := by
  induction n generalizing p with
  | zero =>
    have : p = [] := List.length_eq_zero.mp (Nat.le_zero.mp h)
    simp [this, iterDrop]
  | succ n ih =>
    apply ih
    simp only [List.length_dropLast]
    omega

theorem walkUpAux_finds (links : List (FsPath × FsPath)) (keys : List FsPath)
    (n : Nat) :
    ∀ (fuel : Nat) (p a : FsPath), iterDrop n p = a → a ≠ [] → n < fuel →
    (∀ m, m < n → keys.contains (normalize_path links (iterDrop m p)) = false) →
    keys.contains (normalize_path links a) = true →
    walkUpAux links keys fuel p = some (normalize_path links a) := by
  induction n with
  | zero =>
    intro fuel p a ha hne hfuel _ hmem
    subst ha
    simp only [iterDrop] at hne hmem ⊢
    cases fuel with
    | zero => omega
    | succ f =>
      simp only [walkUpAux]
      rw [if_neg hne, if_pos hmem]
  | succ n ih =>
    intro fuel p a ha hne hfuel hdeep hmem
    have hp : p ≠ [] := by
      intro h
      subst h
      rw [iterDrop_nil] at ha
      exact hne ha.symm
    have h0 : keys.contains (normalize_path links p) = false := by
      simpa [iterDrop] using hdeep 0 (Nat.succ_pos n)
    cases fuel with
    | zero => omega
    | succ f =>
      simp only [walkUpAux]
      rw [if_neg hp]
      have hcontra : ¬ (keys.contains (normalize_path links p) = true) := by
        rw [h0]
        exact Bool.false_ne_true
      rw [if_neg hcontra]
      exact ih f p.dropLast a ha hne (by omega)
        (fun m hm => hdeep (m + 1) (Nat.succ_lt_succ hm)) hmem

/-- If the `n`-th ancestor of `p` is the first whose normalization lies in
the key set, the walk returns that normalization. -/
theorem walkUp_finds (links : List (FsPath × FsPath)) (keys : List FsPath)
    (n : Nat) (p a : FsPath) (ha : iterDrop n p = a) (hne : a ≠ [])
    (hdeep : ∀ m, m < n → keys.contains (normalize_path links (iterDrop m p)) = false)
    (hmem : keys.contains (normalize_path links a) = true) :
    walkUp links keys p = some (normalize_path links a) := by
  have hlt : n < p.length := by
    by_contra hc
    push_neg at hc
    rw [iterDrop_eq_nil_of_le n p hc] at ha
    exact hne ha.symm
  exact walkUpAux_finds links keys n p.length p a ha hne hlt hdeep hmem

/-- C2: a document whose path reaches a registered workspace root `w` only
through a symbolic link still resolves to the entry stored under
`normalize(w)` — its `n`-th ancestor normalizes to `normalize(w)`, every
deeper ancestor misses the key set (nearest match wins), and the stored
entry for that key is returned instead of global defaults. -/
theorem symlinked_document_resolves_to_workspace (links : List (FsPath × FsPath))
    (g : GlobalDefaults) (st : Store) (doc : Doc) (p w a : FsPath)
    (s : WsSettings) (n : Nat)
    (hpath : doc.path = some p)
    (ha : iterDrop n p = a) (hne : a ≠ [])
    (hnw : normalize_path links a = normalize_path links w)
    (hdeep : ∀ m, m < n →
        (workspaceKeys st).contains (normalize_path links (iterDrop m p)) = false)
    (hkey : (workspaceKeys st).contains (normalize_path links w) = true)
    (hlook : List.lookup (normalize_path links w) st = some s) :
    _get_settings_by_document links g st (some doc) = Except.ok s := by
  have hwalk : walkUp links (workspaceKeys st) p = some (normalize_path links w) := by
    have h := walkUp_finds links (workspaceKeys st) n p a ha hne hdeep
      (by rw [hnw]; exact hkey)
    rwa [hnw] at h
  have hst : st.isEmpty = false := by
    cases st with
    | nil => simp [workspaceKeys] at hkey
    | cons kv rest => rfl
  simp [_get_settings_by_document, hpath, _get_document_key, hst, hwalk, hlook]

/-- The link table with `/tmp/ws_link` → `/tmp/ws`. -/
def c2Links : List (FsPath × FsPath) := [(["tmp", "ws_link"], ["tmp", "ws"])]

/-- The settings stored for the real workspace `/tmp/ws`. -/
def c2Entry : WsSettings :=
  { cwd := ["tmp", "ws"], workspaceFS := ["tmp", "ws"], path := [],
    interpreter := ["python"], args := ["--max-line-length=120"],
    severity := defaultSeverity, importStrategy := "useBundled",
    showNotifications := "off" }

/-- A store registering only `/tmp/ws`. -/
def c2Store : Store := [(["tmp", "ws"], c2Entry)]

/-- The document reached through the symlink:
`/tmp/ws_link/sub/real_file.py`. -/
def c2Doc : Doc :=
  { uri := "file:r.py", path := some ["tmp", "ws_link", "sub", "real_file.py"],
    source := "" }

/-- C2 (witness): resolving the symlinked path returns the stored entry
with `args == ["--max-line-length=120"]`, not global defaults. -/
theorem symlinked_document_resolves_to_workspace_witness :
    _get_settings_by_document c2Links gDefault c2Store (some c2Doc)
        = Except.ok c2Entry
    ∧ c2Entry.args = ["--max-line-length=120"] :=
  ⟨symlinked_document_resolves_to_workspace c2Links gDefault c2Store c2Doc
      ["tmp", "ws_link", "sub", "real_file.py"] ["tmp", "ws"] ["tmp", "ws_link"]
      c2Entry 2 rfl rfl (by decide) (by decide) (by decide) (by decide) (by decide),
   rfl⟩

/-
  C5 — stdlib skipping and the site-packages segment test.
-/

/-- The stdlib root `/usr/lib/python3.12`. -/
def c5Roots : List FsPath := [["usr", "lib", "python3.12"]]

/-- A document inside a `site-packages` segment under the stdlib root. -/
def c5DocSite : Doc :=
  { uri := "file:m.py",
    path := some ["usr", "lib", "python3.12", "site-packages", "mymodule.py"],
    source := "" }

/-- A document under the stdlib root inside `site-packages-backup`. -/
def c5DocBackup : Doc :=
  { uri := "file:n.py",
    path := some ["usr", "lib", "python3.12", "site-packages-backup", "mymodule.py"],
    source := "" }

/-- C5 (counterexample): the claim says a path with a segment exactly
`site-packages` under a stdlib root yields no plan, while
`site-packages-backup` is invoked.  The model (from spec §4.4 and
`test_stdlib_detection.py`) does the opposite on these concrete paths:
the `site-packages` document gets a plan and the `site-packages-backup`
document is skipped. -/
theorem site_packages_skip_polarity_counterexample :
    _run_tool_on_document c5Roots [] (fun _ => true) gDefault [] c5DocSite false []
        = Except.ok (some
            { backend := Backend.inProcessModule,
              argv := [TOOL_MODULE, FORMAT_ARG,
                       "/usr/lib/python3.12/site-packages/mymodule.py"],
              cwd := ["usr", "lib", "python3.12", "site-packages"],
              useStdin := false })
    ∧ _run_tool_on_document c5Roots [] (fun _ => true) gDefault [] c5DocBackup false []
        = Except.ok none := by
  exact ⟨rfl, rfl⟩

/-- C5 (amended): a document whose resolved path falls under a stdlib root
with no segment exactly equal to `site-packages` is skipped (no plan, so
also for `site-packages-backup`); a document whose resolved path has a
segment exactly `site-packages` is not a stdlib file, and the tool is
invoked with the assembled plan. -/
theorem site_packages_segment_is_linted (stdlibRoots : List FsPath)
    (links : List (FsPath × FsPath)) (isCurrent : String → Bool)
    (g : GlobalDefaults) (st : Store) (doc : Doc) (p : FsPath)
    (useStdin : Bool) (extraArgs : List String)
    (hpath : doc.path = some p)
    (hnb : doc.uri.startsWith "vscode-notebook-cell" = false) :
    ((stdlibRoots.any (fun r => r.isPrefixOf (normalize_path links p))) = true →
      (normalize_path links p).contains SITE_PACKAGES = false →
      _run_tool_on_document stdlibRoots links isCurrent g st doc useStdin extraArgs
        = Except.ok none)
    ∧ ((normalize_path links p).contains SITE_PACKAGES = true →
      ∀ s, _get_settings_by_document links g st (some doc) = Except.ok s →
        _run_tool_on_document stdlibRoots links isCurrent g st doc useStdin extraArgs
          = Except.ok (some (planForSettings isCurrent s p useStdin extraArgs))) := by
  constructor
  · intro h1 h2
    have hstd : is_stdlib_file stdlibRoots links p = true := by
      show ((stdlibRoots.any fun r => r.isPrefixOf (normalize_path links p))
          && !((normalize_path links p).contains SITE_PACKAGES)) = true
      rw [h1, h2]
      rfl
    simp [_run_tool_on_document, hnb, hpath, hstd]
  · intro h1 s hres
    have hstd : is_stdlib_file stdlibRoots links p = false := by
      show ((stdlibRoots.any fun r => r.isPrefixOf (normalize_path links p))
          && !((normalize_path links p).contains SITE_PACKAGES)) = false
      rw [h1]
      simp
    simp [_run_tool_on_document, hnb, hpath, hstd, hres]

/-- C5 (witness): the amended statement at the two concrete documents —
`site-packages-backup` under the stdlib root is skipped, and the
`site-packages` document is planned for the in-process backend. -/
theorem site_packages_segment_is_linted_witness :
    _run_tool_on_document c5Roots [] (fun _ => true) gDefault [] c5DocBackup false []
        = Except.ok none
    ∧ _run_tool_on_document c5Roots [] (fun _ => true) gDefault [] c5DocSite false []
        = Except.ok (some (planForSettings (fun _ => true)
            (orphanSettings gDefault
              ["usr", "lib", "python3.12", "site-packages"])
            ["usr", "lib", "python3.12", "site-packages", "mymodule.py"]
            false [])) :=
  ⟨(site_packages_segment_is_linted c5Roots [] (fun _ => true) gDefault []
      c5DocBackup ["usr", "lib", "python3.12", "site-packages-backup", "mymodule.py"]
      false [] rfl (by decide)).1 (by decide) (by decide),
   (site_packages_segment_is_linted c5Roots [] (fun _ => true) gDefault []
      c5DocSite ["usr", "lib", "python3.12", "site-packages", "mymodule.py"]
      false [] rfl (by decide)).2 (by decide)
      (orphanSettings gDefault ["usr", "lib", "python3.12", "site-packages"]) rfl⟩

/-
  C4 — the format directive occurs exactly once per invocation.
-/

/-- Every assembled plan carries the format directive exactly once,
provided none of the user-controlled argument sources smuggles the same
string in. -/
theorem count_format_in_plan (isCurrent : String → Bool) (s : WsSettings)
    (docPath : FsPath) (useStdin : Bool) (extraArgs : List String)
    (h1 : FORMAT_ARG ∉ s.path) (h2 : FORMAT_ARG ∉ s.args)
    (h3 : FORMAT_ARG ∉ extraArgs) (h4 : FORMAT_ARG ≠ pathToString docPath) :
    (planForSettings isCurrent s docPath useStdin extraArgs).argv.count FORMAT_ARG
      = 1 := by
  have hmod : List.count FORMAT_ARG [TOOL_MODULE] = 0 := by decide
  have hbase : (_choose isCurrent s).2.2.count FORMAT_ARG = 0 := by
    by_cases hp : s.path = []
    · rcases hi : s.interpreter with _ | ⟨i0, r⟩
      · simpa [_choose, hp, hi] using hmod
      · by_cases hc : isCurrent i0 <;> simpa [_choose, hp, hi, hc] using hmod
    · have hch : (_choose isCurrent s).2.2 = s.path := by simp [_choose, hp]
      rw [hch]
      exact List.count_eq_zero.mpr h1
  have hdoc : (docArgs docPath useStdin).count FORMAT_ARG = 0 := by
    apply List.count_eq_zero.mpr
    cases useStdin
    · simp [docArgs, h4]
    · simp [docArgs, h4]
      decide
  have hargs : s.args.count FORMAT_ARG = 0 := List.count_eq_zero.mpr h2
  have hextra : extraArgs.count FORMAT_ARG = 0 := List.count_eq_zero.mpr h3
  have htool : TOOL_ARGS.count FORMAT_ARG = 1 := by decide
  simp [planForSettings, List.count_append, hbase, hargs, hextra, htool, hdoc]

theorem lintArgvSequence_succ (stdlibRoots : List FsPath)
    (links : List (FsPath × FsPath)) (isCurrent : String → Bool)
    (g : GlobalDefaults) (doc : Doc) (useStdin : Bool) (extraArgs : List String)
    (n : Nat) (st : Store) :
    lintArgvSequence stdlibRoots links isCurrent g doc useStdin extraArgs (n + 1) st
      = (match _run_tool_on_document stdlibRoots links isCurrent g st doc useStdin extraArgs with
         | Except.ok (some pl) => [pl.argv]
         | _ => [])
        ++ lintArgvSequence stdlibRoots links isCurrent g doc useStdin extraArgs n st := rfl

/-- Any successfully produced plan comes from the resolved settings of the
document via `planForSettings`. -/
theorem run_tool_plan_inversion (stdlibRoots : List FsPath)
    (links : List (FsPath × FsPath)) (isCurrent : String → Bool)
    (g : GlobalDefaults) (st : Store) (doc : Doc) (useStdin : Bool)
    (extraArgs : List String) (pl : ExecutionPlan)
    (hrun : _run_tool_on_document stdlibRoots links isCurrent g st doc useStdin extraArgs
        = Except.ok (some pl)) :
    ∃ p s, doc.path = some p
      ∧ _get_settings_by_document links g st (some doc) = Except.ok s
      ∧ pl = planForSettings isCurrent s p useStdin extraArgs := by
  unfold _run_tool_on_document at hrun
  by_cases hnb : doc.uri.startsWith "vscode-notebook-cell"
  · rw [if_pos hnb] at hrun
    exact absurd hrun (by simp)
  · rw [if_neg hnb] at hrun
    cases hp : doc.path with
    | none =>
      rw [hp] at hrun
      exact absurd hrun (by simp)
    | some p =>
      rw [hp] at hrun
      dsimp only at hrun
      by_cases hstd : is_stdlib_file stdlibRoots links p
      · rw [if_pos hstd] at hrun
        exact absurd hrun (by simp)
      · rw [if_neg hstd] at hrun
        cases hres : _get_settings_by_document links g st (some doc) with
        | error e =>
          rw [hres] at hrun
          exact absurd hrun (by simp)
        | ok s =>
          rw [hres] at hrun
          dsimp only at hrun
          refine ⟨p, s, rfl, rfl, ?_⟩
          have h1 : some (planForSettings isCurrent s p useStdin extraArgs) = some pl :=
            Except.ok.inj hrun
          exact (Option.some.inj h1).symm

/-- C4: across any number of successive invocations of the pipeline on the
same document over the same store, every produced argument vector contains
the format directive exactly once — nothing accumulates, because each
invocation rebuilds argv from a private copy of the stored settings. -/
theorem repeated_linting_format_flag_once (stdlibRoots : List FsPath)
    (links : List (FsPath × FsPath)) (isCurrent : String → Bool)
    (g : GlobalDefaults) (st : Store) (doc : Doc) (useStdin : Bool)
    (extraArgs : List String) (p : FsPath)
    (hpath : doc.path = some p)
    (hs : ∀ s, _get_settings_by_document links g st (some doc) = Except.ok s →
        FORMAT_ARG ∉ s.path ∧ FORMAT_ARG ∉ s.args)
    (hx : FORMAT_ARG ∉ extraArgs)
    (hd : FORMAT_ARG ≠ pathToString p) :
    ∀ n, ∀ argv ∈ lintArgvSequence stdlibRoots links isCurrent g doc useStdin extraArgs n st,
      argv.count FORMAT_ARG = 1 := by
  intro n
  induction n with
  | zero =>
    intro argv h
    exact absurd h (List.not_mem_nil argv)
  | succ n ih =>
    intro argv h
    rw [lintArgvSequence_succ] at h
    rcases List.mem_append.mp h with h | h
    · cases hrun : _run_tool_on_document stdlibRoots links isCurrent g st doc useStdin extraArgs with
      | error e =>
        rw [hrun] at h
        exact absurd h (List.not_mem_nil argv)
      | ok o =>
        cases o with
        | none =>
          rw [hrun] at h
          exact absurd h (List.not_mem_nil argv)
        | some pl =>
          rw [hrun] at h
          have hargv : argv = pl.argv := by simpa using h
          obtain ⟨p2, s, hp2, hres, hpl⟩ :=
            run_tool_plan_inversion stdlibRoots links isCurrent g st doc useStdin
              extraArgs pl hrun
          rw [hpath] at hp2
          rw [hargv, hpl, ← Option.some.inj hp2]
          exact count_format_in_plan isCurrent s p useStdin extraArgs
            (hs s hres).1 (hs s hres).2 hx hd
    · exact ih argv h

/-- C4 (witness): two successive invocations on `/tmp/x/a.py` over the
one-entry store both produce the same argv, which holds the format
directive exactly once. -/
theorem repeated_linting_format_flag_once_witness :
    (["flake8", FORMAT_ARG, "/tmp/x/a.py"]).count FORMAT_ARG = 1
    ∧ lintArgvSequence [] [] (fun _ => true) gDefault c1Doc false [] 2 demoStore
        = [["flake8", FORMAT_ARG, "/tmp/x/a.py"],
           ["flake8", FORMAT_ARG, "/tmp/x/a.py"]] :=
  ⟨repeated_linting_format_flag_once [] [] (fun _ => true) gDefault demoStore c1Doc
      false [] ["tmp", "x", "a.py"] rfl
      (fun s hres => by
        have h : Except.ok (orphanSettings gDefault ["tmp", "x"]) = Except.ok s := hres
        cases h
        exact ⟨by decide, by decide⟩)
      (by decide) (by decide) 2
      ["flake8", FORMAT_ARG, "/tmp/x/a.py"] (by decide),
   by decide⟩

/-
  C7 — severity lookup walks shrinking prefixes.
-/

/-- The prefixes of a code from most specific to least specific, described
independently of the loop: `codePrefixes "E225" = ["E225", "E22", "E2",
"E"]`. -/
def codePrefixes (code : String) : List String :=
  (List.range code.length).map (fun i => String.mk (code.data.take (code.length - i)))

theorem listFindSomeCons {α β : Type} (f : α → Option β) (a : α) (l : List α) :
    (a :: l).findSome? f
      = match f a with
        | some b => some b
        | none => l.findSome? f := rfl

theorem codePrefixes_cons (code : String) (h : code ≠ "") :
    codePrefixes code = code :: codePrefixes (strDropLast code) := by
  have hd : code.data ≠ [] := by
    intro hnil
    apply h
    cases code
    simp only at hnil
    rw [hnil]
  obtain ⟨m, hm⟩ : ∃ m, code.data.length = m + 1 :=
    ⟨code.data.length - 1, by have := List.length_pos.mpr hd; omega⟩
  show (List.range code.data.length).map
      (fun i => String.mk (code.data.take (code.data.length - i)))
    = code :: (List.range code.data.dropLast.length).map
        (fun i => String.mk (code.data.dropLast.take (code.data.dropLast.length - i)))
  have hlen : code.data.dropLast.length = m := by
    simp [List.length_dropLast, hm]
  rw [hm, hlen, List.range_succ_eq_map, List.map_cons, List.map_map]
  congr 1
  · show String.mk (code.data.take (m + 1 - 0)) = code
    rw [Nat.sub_zero, ← hm, List.take_length]
  · apply List.map_congr_left
    intro i hi
    have hi2 : i < m := List.mem_range.mp hi
    show String.mk (code.data.take (m + 1 - (i + 1)))
      = String.mk (code.data.dropLast.take (m - i))
    have h2 : code.data.dropLast.take (m - i) = code.data.take (m - i) := by
      rw [List.dropLast_eq_take, hm, Nat.add_sub_cancel, List.take_take]
      rw [Nat.min_eq_left (Nat.sub_le m i)]
    rw [h2]
    congr 2
    omega

theorem sevLoop_eq_findSome (severity : List (String × String)) :
    ∀ (fuel : Nat) (code : String), code.length ≤ fuel →
    sevLoop severity fuel code
      = (codePrefixes code).findSome? (fun pre => List.lookup pre severity) := by
  intro fuel
  induction fuel with
  | zero =>
    intro code hle
    have hc : code = "" := by
      cases code with
      | mk l =>
        cases l with
        | nil => rfl
        | cons c cs => simp [String.length] at hle
    subst hc
    rfl
  | succ fuel ih =>
    intro code hle
    by_cases h : code = ""
    · subst h
      rfl
    · rw [codePrefixes_cons code h, listFindSomeCons]
      simp only [sevLoop]
      rw [if_neg h]
      cases hl : List.lookup code severity with
      | some v => rfl
      | none =>
        have hlen : (strDropLast code).length ≤ fuel := by
          have hd : (strDropLast code).length = code.length - 1 := by
            show code.data.dropLast.length = code.length - 1
            rw [List.length_dropLast]
            rfl
          omega
        exact ih (strDropLast code) hlen

theorem listFindSomeEqNoneMem {α β : Type} (f : α → Option β) (l : List α)
    (h : l.findSome? f = none) : ∀ x ∈ l, f x = none := by
  induction l with
  | nil =>
    intro x hx
    cases hx
  | cons a t ih =>
    intro x hx
    rw [listFindSomeCons] at h
    cases hfa : f a with
    | some b =>
      rw [hfa] at h
      cases h
    | none =>
      rw [hfa] at h
      rcases List.mem_cons.mp hx with hx | hx
      · subst hx
        exact hfa
      · exact ih h x hx

/-- C7: severity lookup tests the code and then each prefix obtained by
successively dropping the last character, returning the converted first
configured override, and `Error` when none of the prefixes is configured
(the separate code-type fallback is redundant, since the calling
convention makes the code type the code's one-character prefix). -/
theorem severity_prefix_walk (code code_type : String)
    (severity : List (String × String))
    (hne : code ≠ "") (hct : code_type = String.mk (code.data.take 1)) :
    _get_severity code code_type severity
      = match (codePrefixes code).findSome? (fun pre => List.lookup pre severity) with
        | some v => (sevFromString v).getD DiagnosticSeverity.error
        | none => DiagnosticSeverity.error := by
  have hpos : 0 < code.length := by
    cases code with
    | mk l =>
      cases l with
      | nil => exact absurd rfl hne
      | cons c cs => simp [String.length]
  unfold _get_severity
  rw [sevLoop_eq_findSome severity code.length code (Nat.le_refl _)]
  cases hfs : (codePrefixes code).findSome? (fun pre => List.lookup pre severity) with
  | some v => rfl
  | none =>
    have hmem : code_type ∈ codePrefixes code := by
      rw [hct]
      unfold codePrefixes
      refine List.mem_map.mpr ⟨code.length - 1, List.mem_range.mpr (by omega), ?_⟩
      have h1 : code.length - (code.length - 1) = 1 := by omega
      rw [h1]
    have hnone : List.lookup code_type severity = none :=
      listFindSomeEqNoneMem (fun pre => List.lookup pre severity)
        (codePrefixes code) hfs code_type hmem
    simp [hnone, sevFromString]

/-- C7 (witness): `"E225"` against an override map configuring only
`"E22"` walks `E225 → E22` and returns the `Warning` override. -/
theorem severity_prefix_walk_witness :
    _get_severity "E225" "E" [("E22", "Warning")]
      = match (codePrefixes "E225").findSome?
            (fun pre => List.lookup pre [("E22", "Warning")]) with
        | some v => (sevFromString v).getD DiagnosticSeverity.error
        | none => DiagnosticSeverity.error :=
  severity_prefix_walk "E225" "E" [("E22", "Warning")] (by decide) (by decide)

/-
  C9 — every stored key is normalized and stamped into the entry.
-/

/-- The store invariant of spec §4.2: every key was produced by the path
normalizer, and each entry's `workspaceFS` field equals its key. -/
def normalizedKeyInvariant (links : List (FsPath × FsPath)) (st : Store) : Prop :=
  ∀ kv ∈ st, (∃ q, kv.1 = normalize_path links q) ∧ kv.2.workspaceFS = kv.1

theorem storeSet_preserves_invariant (links : List (FsPath × FsPath)) (st : Store)
    (k : FsPath) (v : WsSettings) (hst : normalizedKeyInvariant links st)
    (hk : ∃ q, k = normalize_path links q) (hv : v.workspaceFS = k) :
    normalizedKeyInvariant links (storeSet st k v) := by
  intro kv hkv
  unfold storeSet at hkv
  by_cases hany : st.any (fun kv => kv.1 == k)
  · rw [if_pos hany] at hkv
    rcases List.mem_map.mp hkv with ⟨kv0, hkv0, heq⟩
    by_cases he : kv0.1 == k
    · rw [if_pos he] at heq
      subst heq
      exact ⟨hk, hv⟩
    · rw [if_neg he] at heq
      subst heq
      exact hst kv0 hkv0
  · rw [if_neg hany] at hkv
    rcases List.mem_append.mp hkv with hkv | hkv
    · exact hst kv hkv
    · rcases List.mem_singleton.mp hkv with rfl
      exact ⟨hk, hv⟩

theorem update_preserves_invariant (links : List (FsPath × FsPath))
    (globalCwd : FsPath) (g : GlobalDefaults) (settings : List RawSetting)
    (st : Store) (hst : normalizedKeyInvariant links st) :
    normalizedKeyInvariant links
      (_update_workspace_settings links globalCwd g settings st) := by
  unfold _update_workspace_settings
  by_cases hs : settings.isEmpty
  · rw [if_pos hs]
    exact storeSet_preserves_invariant links st _ _ hst ⟨globalCwd, rfl⟩ rfl
  · rw [if_neg hs]
    clear hs
    induction settings generalizing st with
    | nil => exact hst
    | cons s t ih =>
      simp only [List.foldl_cons]
      exact ih _ (storeSet_preserves_invariant links st _ _ hst ⟨s.workspace, rfl⟩ rfl)

/-- C9: after any sequence of settings updates starting from the empty
session store — whichever mix of the empty-settings seeding branch and the
per-workspace upsert branch — every key in the store is a
normalizer-produced path and every entry's `workspaceFS` equals its key;
no raw path is ever inserted as a key. -/
theorem store_keys_always_normalized (links : List (FsPath × FsPath))
    (globalCwd : FsPath) (g : GlobalDefaults) (ops : List (List RawSetting)) :
    normalizedKeyInvariant links
      (ops.foldl
        (fun st op => _update_workspace_settings links globalCwd g op st) []) := by
  have hgen : ∀ (l : List (List RawSetting)) (st : Store),
      normalizedKeyInvariant links st →
      normalizedKeyInvariant links
        (l.foldl (fun st op => _update_workspace_settings links globalCwd g op st) st) := by
    intro l
    induction l with
    | nil => intro st h; exact h
    | cons op t ih =>
      intro st h
      simp only [List.foldl_cons]
      exact ih _ (update_preserves_invariant links globalCwd g op st h)
  exact hgen ops [] (by intro kv hkv; cases hkv)

/-- The raw settings update of the cited test: a workspace registered
through its symlinked URI `/tmp/ws_link`. -/
def c9Op : List RawSetting :=
  [{ workspace := ["tmp", "ws_link"], cwd := ["tmp", "ws_link"], path := [],
     interpreter := [], args := ["--ignore=E501"], severity := [],
     importStrategy := "useBundled", showNotifications := "off" }]

/-- C9 (witness): seeding then upserting the symlinked workspace keeps the
invariant; in particular the upserted key is the resolved real path. -/
theorem store_keys_always_normalized_witness :
    normalizedKeyInvariant c2Links
      ([[], c9Op].foldl
        (fun st op => _update_workspace_settings c2Links ["srv"] gDefault op st) [])
    ∧ workspaceKeys
        ([[], c9Op].foldl
          (fun st op => _update_workspace_settings c2Links ["srv"] gDefault op st) [])
      = [["srv"], ["tmp", "ws"]] :=
  ⟨store_keys_always_normalized c2Links ["srv"] gDefault [[], c9Op], by decide⟩

end Flake8
